import Mathlib

/-!
# The host-object bridge `realm::js::JSObject`

A shallow embedding of `src/common/js_plain_object.hpp`.

The bridge owns a native collection, a list of subscribers and a flag telling
whether the collection is being watched.  Every member function is embedded as
a pure function on the bridge state that also returns the trace of the calls it
makes into its collaborators (the native collection, the property binder, the
subscribers, the console), in program order.

Conventions of the embedding:

* `std::vector<Subscriber*>` is a `List Subscriber`; `push_back` appends at the
  end, `erase(begin() + index)` is `List.eraseIdx`, `clear()` is `[]`.
* The template parameter `Collection` is a type parameter together with a
  `CollectionInterface` giving the behaviour of its member functions as state
  transitions; nothing is assumed about them.
* A subscriber's `notify` either returns or throws.  The bridge contains no
  `try`/`catch`, so an exception leaves the enclosing functions at once.
  The other collaborators are taken to return normally, and no collaborator
  calls back into the bridge while it is being called, except where a
  definition says so: the fan-out `notify_loop_reentrant`, whose subscribers
  may call back, and `JSObject.finalizer`, whose callback may.
* `HANDLESCOPE(context)` only opens a host-runtime handle scope and has no
  effect on the bridge state or on the calls recorded here.
-/

namespace realm.js

/-! ## Data model -/

/-- The host runtime context handle, `VM::Context`. -/
abbrev ContextType := Nat

/-- A host-visible object handle, `VM::Object`. -/
abbrev ObjectType := Nat

/-- The opaque change description carried by a notification. -/
abbrev ChangeSet := String

/-- The two members of `collection::Notification` that the bridge reads. -/
structure Notification where
  change_set : ChangeSet
  from_realm : Bool

/-- How a call into a subscriber ends: it returns, or it throws. -/
inductive Completion where
  | returned
  | threw
deriving DecidableEq, Repr

/-- Modelled from the spec: the `Subscriber` interface is declared in
`object/interfaces.hpp`, which is not among the sources.  The specification
describes a subscriber handle as an identity together with
`notify(hostObjectRef, changeSet)`, compared by identity and never by value.
Two different subscriber objects may carry the same identity. -/
structure Subscriber where
  identity : Nat
  notify : ObjectType → ChangeSet → Completion

/-- Modelled from the spec: `candidate->equals(subscriber)` compares the two
identities (the virtual member itself is declared in the absent
`object/interfaces.hpp`). -/
def Subscriber.equals (candidate subscriber : Subscriber) : Bool :=
  candidate.identity == subscriber.identity

/-- The member `common::JavascriptObject js_object`: the wrapper around the
host object, created from the context. -/
structure JavascriptObject where
  context : ContextType
  object : ObjectType

/-- The accessor `js_object.get_object()`. -/
def JavascriptObject.get_object (js_object : JavascriptObject) : ObjectType :=
  js_object.object

/-- A call made by the bridge into one of its collaborators. -/
inductive Call where
  /-- Console output, `std::cout << text`. -/
  | cout (text : String)
  /-- Registration of the change callback, `collection->on_change(...)`. -/
  | on_change
  /-- Activation of native observation, `collection->watch()`, with its result. -/
  | watch (result : Bool)
  /-- Identity test, `candidate->equals(subscriber)`. -/
  | equals (candidate subscriber : Subscriber)
  /-- Property refresh, `getters_setters->update(js_object, this)`. -/
  | update (js_object : JavascriptObject)
  /-- Delivery, `subscriber->notify(object, change_set)`. -/
  | notify (subscriber : Subscriber) (object : ObjectType) (change_set : ChangeSet)
  /-- Installation of callables, `methods->apply(js_object, this)`. -/
  | methods_apply (js_object : JavascriptObject)
  /-- Installation of accessors, `getters_setters->apply(js_object, this)`. -/
  | getters_setters_apply (js_object : JavascriptObject)
  /-- Android only, `js_object.set_collection(collection.get())`. -/
  | set_collection
  /-- Android only, `js_object.set_observer(this)`. -/
  | set_observer
  /-- Registration of a finalizer for a host object,
  `common::JavascriptObject::finalize(object, ..., this)`. -/
  | finalize (object : ObjectType)
  /-- The call `cb()` of the callback handed to `setup_finalizer`. -/
  | cb

/-- Behaviour of the collaborators that the template parameters and the host
runtime supply: the native collection and the creation of the host object. -/
structure CollectionInterface (Collection RealmData : Type) where
  /-- The constructor `Collection(_data)`. -/
  make : RealmData → Collection
  /-- The member `on_change(callback)`, as a transition of the collection. -/
  on_change : Collection → Collection
  /-- The member `watch()`: its result and the collection afterwards. -/
  watch : Collection → Bool × Collection
  /-- The constructor `JavascriptObject(context)`: the host object it creates. -/
  create_object : ContextType → ObjectType

/-- The state fields of `JSObject` (the stateless `methods` and
`getters_setters` helpers appear only through the calls made into them). -/
structure JSObject (Collection : Type) where
  context : ContextType
  waiting_for_notifications : Bool
  collection : Collection
  subscribers : List Subscriber
  js_object : JavascriptObject

variable {Collection RealmData : Type}

/-! ## Member functions -/

/-- The constructor: initialises the fields (`waiting_for_notifications{false}`,
an empty vector), builds the collection from the data and registers the change
callback on it. -/
def JSObject.construct (native : CollectionInterface Collection RealmData)
    (_context : ContextType) (_data : RealmData) : JSObject Collection × List Call :=
  ({ context := _context
     waiting_for_notifications := false
     collection := native.on_change (native.make _data)
     subscribers := []
     js_object := { context := _context, object := native.create_object _context } },
   [Call.on_change])

/-- The accessor `get_collection()`. -/
def JSObject.get_collection (self : JSObject Collection) : Collection :=
  self.collection

/-- The member `watch_collection()`: returns at once when already watching,
otherwise stores the result of `collection->watch()` in the flag. -/
def JSObject.watch_collection (native : CollectionInterface Collection RealmData)
    (self : JSObject Collection) : JSObject Collection × List Call :=
  if self.waiting_for_notifications then
    (self, [])
  else
    ({ self with
        waiting_for_notifications := (native.watch self.collection).1
        collection := (native.watch self.collection).2 },
     [Call.watch (native.watch self.collection).1])

/-- The member `subscribe(subscriber)`: `push_back`, then `watch_collection()`. -/
def JSObject.subscribe (native : CollectionInterface Collection RealmData)
    (self : JSObject Collection) (subscriber : Subscriber) :
    JSObject Collection × List Call :=
  JSObject.watch_collection native
    { self with subscribers := self.subscribers ++ [subscriber] }

/-- The loop of `remove_subscription`: `remaining` is the part of the vector
still to be visited and `index` the counter before the increment.  On the
first candidate that equals the subscriber, the element at `begin() + index`
of the whole vector is erased and the loop is left. -/
def remove_subscription_loop (subscriber : Subscriber) (subscribers : List Subscriber) :
    List Subscriber → Int → List Subscriber × List Call
  | [], _ => (subscribers, [])
  | candidate :: remaining, index =>
    if candidate.equals subscriber then
      (subscribers.eraseIdx (index + 1).toNat, [Call.equals candidate subscriber])
    else
      ((remove_subscription_loop subscriber subscribers remaining (index + 1)).1,
       Call.equals candidate subscriber ::
         (remove_subscription_loop subscriber subscribers remaining (index + 1)).2)

/-- The member `remove_subscription(subscriber)`: the loop started with
`index = -1` over the whole vector. -/
def JSObject.remove_subscription (self : JSObject Collection) (subscriber : Subscriber) :
    JSObject Collection × List Call :=
  ({ self with
      subscribers := (remove_subscription_loop subscriber self.subscribers self.subscribers (-1)).1 },
   (remove_subscription_loop subscriber self.subscribers self.subscribers (-1)).2)

/-- The member `unsubscribe_all()`: `subscribers.clear()`. -/
def JSObject.unsubscribe_all (self : JSObject Collection) : JSObject Collection × List Call :=
  ({ self with subscribers := [] }, [])

/-- The range-for of `notify_subscriber` over the vector: each subscriber is
called with the host object and the change set; a call that throws ends the
loop, the exception leaving it. -/
def notify_loop (object : ObjectType) (change_set : ChangeSet) :
    List Subscriber → List Call × Completion
  | [] => ([], Completion.returned)
  | subscriber :: remaining =>
    match subscriber.notify object change_set with
    | Completion.returned =>
      (Call.notify subscriber object change_set :: (notify_loop object change_set remaining).1,
       (notify_loop object change_set remaining).2)
    | Completion.threw =>
      ([Call.notify subscriber object change_set], Completion.threw)

/-- The member `notify_subscriber(notification)`. -/
def JSObject.notify_subscriber (self : JSObject Collection) (notification : Notification) :
    List Call × Completion :=
  notify_loop self.js_object.get_object notification.change_set self.subscribers

/-- The member `update(change_set)`: a line on the console, then
`getters_setters->update(js_object, this)`.  The argument is not used. -/
def JSObject.update (self : JSObject Collection) (_change_set : Notification) : List Call :=
  [Call.cout "Update! \n", Call.update self.js_object]

/-- The change callback that the constructor registers with `on_change`: a
line on the console, `update(notification)`, and then, only when the
notification comes from the realm, `notify_subscriber(notification)`. -/
def JSObject.on_change_callback (self : JSObject Collection) (notification : Notification) :
    List Call × Completion :=
  if notification.from_realm then
    (Call.cout "Update! \n" :: (self.update notification ++ (self.notify_subscriber notification).1),
     (self.notify_subscriber notification).2)
  else
    (Call.cout "Update! \n" :: self.update notification, Completion.returned)

/-- The deliveries in a trace: subscriber, host object and change set of each
`notify` call, in order. -/
def notifications : List Call → List (Subscriber × ObjectType × ChangeSet)
  | [] => []
  | Call.notify subscriber object change_set :: calls =>
    (subscriber, object, change_set) :: notifications calls
  | _ :: calls => notifications calls

/-- The property refreshes in a trace: the argument of each
`getters_setters->update` call, in order. -/
def updates : List Call → List JavascriptObject
  | [] => []
  | Call.update js_object :: calls => js_object :: updates calls
  | _ :: calls => updates calls

/-- The results of the `collection->watch()` calls in a trace, in order. -/
def watches : List Call → List Bool
  | [] => []
  | Call.watch result :: calls => result :: watches calls
  | _ :: calls => watches calls

/-! ## Sequences of calls on a bridge -/

/-- One call made on a bridge from outside: a public member function, or the
native collection delivering a notification to the registered callback. -/
inductive Operation where
  | watch_collection
  | subscribe (subscriber : Subscriber)
  | remove_subscription (subscriber : Subscriber)
  | unsubscribe_all
  | notification (notification : Notification)

/-- The bridge after one operation, and the calls the operation made. -/
def JSObject.perform (native : CollectionInterface Collection RealmData)
    (self : JSObject Collection) : Operation → JSObject Collection × List Call
  | Operation.watch_collection => self.watch_collection native
  | Operation.subscribe subscriber => self.subscribe native subscriber
  | Operation.remove_subscription subscriber => self.remove_subscription subscriber
  | Operation.unsubscribe_all => self.unsubscribe_all
  | Operation.notification notification => (self, (self.on_change_callback notification).1)

/-- The bridge after a sequence of operations, and all calls made, in order. -/
def JSObject.run (native : CollectionInterface Collection RealmData) :
    JSObject Collection → List Operation → JSObject Collection × List Call
  | self, [] => (self, [])
  | self, operation :: operations =>
    ((JSObject.run native (self.perform native operation).1 operations).1,
     (self.perform native operation).2 ++
       (JSObject.run native (self.perform native operation).1 operations).2)

/-- Whether every `subscribe` in a sequence of operations is made with a
handle that equals no entry registered at the time of the call. -/
def JSObject.subscribes_unregistered (native : CollectionInterface Collection RealmData) :
    JSObject Collection → List Operation → Bool
  | _, [] => true
  | self, operation :: operations =>
    (match operation with
      | Operation.subscribe subscriber =>
        self.subscribers.all (fun candidate => !candidate.equals subscriber)
      | _ => true) &&
    JSObject.subscribes_unregistered native (self.perform native operation).1 operations

/-- Whether an operation is one of the two that reach `collection->watch()`:
`watch_collection()` itself and `subscribe`, which ends by calling it. -/
def Operation.is_activation : Operation → Bool
  | Operation.watch_collection => true
  | Operation.subscribe _ => true
  | _ => false

/-! ## The finalizer -/

/-- The member `setup_finalizer(object, cb)`: its only statement hands the
lambda `[=]() { cb(); }` to `common::JavascriptObject::finalize` for the given
host object.  No field of the bridge is read or written. -/
def JSObject.setup_finalizer (self : JSObject Collection) (object : ObjectType) :
    JSObject Collection × List Call :=
  (self, [Call.finalize object])

/-- The lambda `[=]() { cb(); }` that `setup_finalizer` registers, as the host
runtime runs it when it disposes of the object: it calls `cb` and does nothing
else.  The callback is the caller's; what it does to the bridge is given as
the operations it performs on it. -/
def JSObject.finalizer (native : CollectionInterface Collection RealmData)
    (self : JSObject Collection) (cb : List Operation) : JSObject Collection × List Call :=
  ((self.run native cb).1, Call.cb :: (self.run native cb).2)

/-! ## The fan-out when subscribers call back into the bridge -/

/-- How a fan-out ends when subscribers may call back: it returns, an
exception leaves it, or its behaviour is undefined because the loop goes on
with iterators of the vector that a call made meanwhile has invalidated. -/
inductive Outcome where
  | returned
  | threw
  | undefined
deriving DecidableEq, Repr

/-- A call that a subscriber makes on the bridge from inside its `notify`. -/
inductive Reentry where
  | subscribe (subscriber : Subscriber)
  | remove_subscription (subscriber : Subscriber)
  | unsubscribe_all

/-- The operation that a call from inside `notify` performs. -/
def Reentry.operation : Reentry → Operation
  | Reentry.subscribe subscriber => Operation.subscribe subscriber
  | Reentry.remove_subscription subscriber => Operation.remove_subscription subscriber
  | Reentry.unsubscribe_all => Operation.unsubscribe_all

/-- Whether a call changes the vector, given its contents: `push_back` and
`clear` always do, `erase` is reached when some entry equals the handle.
Each of the three invalidates iterators of the vector, the past-the-end
iterator among them in every case. -/
def Reentry.invalidates (subscribers : List Subscriber) : Reentry → Bool
  | Reentry.subscribe _ => true
  | Reentry.remove_subscription subscriber =>
    subscribers.any (fun candidate => candidate.equals subscriber)
  | Reentry.unsubscribe_all => true

/-- The range-for of `notify_subscriber` when the `notify` of a subscriber
makes the calls `calls_back subscriber` on the bridge before it returns or
throws.  The loop runs on iterators into the member vector itself, taken at
its start; there is no copy.  `remaining` is what these iterators still have
to visit, which is the rest of the vector as long as no call has changed it.
After a `notify` that changed the vector has returned, the loop would go on
with invalidated iterators: the outcome is undefined. -/
def notify_loop_reentrant (native : CollectionInterface Collection RealmData)
    (calls_back : Subscriber → List Reentry) (object : ObjectType) (change_set : ChangeSet) :
    List Subscriber → JSObject Collection → JSObject Collection × List Call × Outcome
  | [], self => (self, [], Outcome.returned)
  | subscriber :: remaining, self =>
    match subscriber.notify object change_set with
    | Completion.threw =>
      ((self.run native ((calls_back subscriber).map Reentry.operation)).1,
       Call.notify subscriber object change_set ::
         (self.run native ((calls_back subscriber).map Reentry.operation)).2,
       Outcome.threw)
    | Completion.returned =>
      if (calls_back subscriber).any (Reentry.invalidates self.subscribers) then
        ((self.run native ((calls_back subscriber).map Reentry.operation)).1,
         Call.notify subscriber object change_set ::
           (self.run native ((calls_back subscriber).map Reentry.operation)).2,
         Outcome.undefined)
      else
        ((notify_loop_reentrant native calls_back object change_set remaining
            (self.run native ((calls_back subscriber).map Reentry.operation)).1).1,
         Call.notify subscriber object change_set ::
           ((self.run native ((calls_back subscriber).map Reentry.operation)).2 ++
             (notify_loop_reentrant native calls_back object change_set remaining
               (self.run native ((calls_back subscriber).map Reentry.operation)).1).2.1),
         (notify_loop_reentrant native calls_back object change_set remaining
            (self.run native ((calls_back subscriber).map Reentry.operation)).1).2.2)

/-- The member `notify_subscriber(notification)` when subscribers call back. -/
def JSObject.notify_subscriber_reentrant (native : CollectionInterface Collection RealmData)
    (calls_back : Subscriber → List Reentry) (self : JSObject Collection)
    (notification : Notification) : JSObject Collection × List Call × Outcome :=
  notify_loop_reentrant native calls_back self.js_object.get_object notification.change_set
    self.subscribers self

/-- The change callback when subscribers call back into the bridge. -/
def JSObject.on_change_callback_reentrant (native : CollectionInterface Collection RealmData)
    (calls_back : Subscriber → List Reentry) (self : JSObject Collection)
    (notification : Notification) : JSObject Collection × List Call × Outcome :=
  if notification.from_realm then
    ((self.notify_subscriber_reentrant native calls_back notification).1,
     Call.cout "Update! \n" ::
       (self.update notification ++
         (self.notify_subscriber_reentrant native calls_back notification).2.1),
     (self.notify_subscriber_reentrant native calls_back notification).2.2)
  else
    (self, Call.cout "Update! \n" :: self.update notification, Outcome.returned)

/-- A `Completion` as an `Outcome`. -/
def Completion.outcome : Completion → Outcome
  | Completion.returned => Outcome.returned
  | Completion.threw => Outcome.threw

/-! ## Concrete collaborators for the examples -/

/-- A native collection that counts its `watch()` calls and always answers
with the given result. -/
def constant_native (answer : Bool) : CollectionInterface Nat Nat where
  make := fun _data => 0
  on_change := fun collection => collection
  watch := fun collection => (answer, collection + 1)
  create_object := fun _context => 7

/-- A subscriber with the given identity whose `notify` always returns. -/
def quiet_subscriber (identity : Nat) : Subscriber where
  identity := identity
  notify := fun _object _change_set => Completion.returned

/-- A subscriber with the given identity whose `notify` always throws. -/
def faulty_subscriber (identity : Nat) : Subscriber where
  identity := identity
  notify := fun _object _change_set => Completion.threw

/-- A notification that comes from the realm. -/
def realm_notification : Notification where
  change_set := "field=1"
  from_realm := true

/-- A notification that the bridge itself caused. -/
def own_notification : Notification where
  change_set := "field=2"
  from_realm := false

/-- A freshly constructed bridge over `constant_native answer`. -/
def fresh_bridge (answer : Bool) : JSObject Nat :=
  (JSObject.construct (constant_native answer) 0 0).1

/-- A native collection whose `watch()` fails twice and succeeds from the
third call on; the collection counts the calls. -/
def third_time_native : CollectionInterface Nat Nat where
  make := fun _data => 0
  on_change := fun collection => collection
  watch := fun collection => (decide (2 ≤ collection), collection + 1)
  create_object := fun _context => 7

/-- Subscribers that call back nothing from inside `notify`. -/
def no_calls_back : Subscriber → List Reentry :=
  fun _subscriber => []

/-- The subscriber of identity 1 removes itself from inside its `notify`;
the others call back nothing. -/
def first_removes_itself : Subscriber → List Reentry :=
  fun subscriber =>
    if subscriber.identity = 1 then [Reentry.remove_subscription subscriber] else []

/-- Every subscriber tries, from inside its `notify`, to remove a handle of
identity 9. -/
def all_remove_nine : Subscriber → List Reentry :=
  fun _subscriber => [Reentry.remove_subscription (quiet_subscriber 9)]

/-- A bridge with the given registry, watching or not, over a collection of
type `Nat`. -/
def bridge_with (watching : Bool) (subscribers : List Subscriber) : JSObject Nat where
  context := 0
  waiting_for_notifications := watching
  collection := 0
  subscribers := subscribers
  js_object := { context := 0, object := 7 }

/-- Four activations: `subscribe`, `watch_collection`, `subscribe`, `subscribe`. -/
def four_activations : List Operation :=
  [Operation.subscribe (quiet_subscriber 1), Operation.watch_collection,
    Operation.subscribe (quiet_subscriber 2), Operation.subscribe (quiet_subscriber 3)]

/-- A bridge with one subscriber, not watching, on which a finalizer has been
set up and has fired, its callback doing nothing to the bridge. -/
def finalized_bridge : JSObject Nat :=
  ((JSObject.setup_finalizer (bridge_with false [quiet_subscriber 1]) 7).1.finalizer
    (constant_native false) []).1

/-! ## Lemmas on the member functions -/

theorem Subscriber.equals_self (subscriber : Subscriber) : subscriber.equals subscriber = true := by
  simp [Subscriber.equals]

theorem notifications_append (xs ys : List Call) :
    notifications (xs ++ ys) = notifications xs ++ notifications ys := by
  induction xs with
  | nil => rfl
  | cons x xs ih => cases x <;> simp [notifications, ih]

theorem updates_append (xs ys : List Call) :
    updates (xs ++ ys) = updates xs ++ updates ys := by
  induction xs with
  | nil => rfl
  | cons x xs ih => cases x <;> simp [updates, ih]

theorem watches_append (xs ys : List Call) :
    watches (xs ++ ys) = watches xs ++ watches ys := by
  induction xs with
  | nil => rfl
  | cons x xs ih => cases x <;> simp [watches, ih]

/-- The loop of `remove_subscription`, started after `visited` with the
counter at `visited.length - 1`, erases the first remaining entry that equals
the subscriber. -/
theorem remove_subscription_loop_fst (subscriber : Subscriber) :
    ∀ (remaining visited : List Subscriber),
      (remove_subscription_loop subscriber (visited ++ remaining) remaining
          ((visited.length : Int) - 1)).1 =
        visited ++ remaining.eraseP (fun candidate => candidate.equals subscriber) := by
  intro remaining
  induction remaining with
  | nil => intro visited; simp [remove_subscription_loop]
  | cons candidate remaining ih =>
    intro visited
    by_cases h : candidate.equals subscriber = true
    · simp [remove_subscription_loop, h, List.eraseIdx_append_of_length_le]
    · have step := ih (visited ++ [candidate])
      simp only [List.append_assoc, List.singleton_append, List.length_append,
        List.length_singleton, Nat.cast_add, Nat.cast_one, add_sub_cancel_right] at step
      simp only [remove_subscription_loop, h, Bool.false_eq_true, if_false, sub_add_cancel]
      rw [step]
      simp [List.eraseP_cons, h]

/-- The registry after `remove_subscription`: the first entry that equals the
subscriber is erased. -/
theorem remove_subscription_subscribers (self : JSObject Collection) (subscriber : Subscriber) :
    (self.remove_subscription subscriber).1.subscribers =
      self.subscribers.eraseP (fun candidate => candidate.equals subscriber) := by
  have h := remove_subscription_loop_fst subscriber self.subscribers []
  simpa [JSObject.remove_subscription] using h

/-- The loop of `remove_subscription` calls nothing but `equals`. -/
theorem remove_subscription_loop_snd (subscriber : Subscriber) (subscribers : List Subscriber) :
    ∀ (remaining : List Subscriber) (index : Int),
      watches (remove_subscription_loop subscriber subscribers remaining index).2 = [] ∧
      notifications (remove_subscription_loop subscriber subscribers remaining index).2 = [] ∧
      updates (remove_subscription_loop subscriber subscribers remaining index).2 = [] := by
  intro remaining
  induction remaining with
  | nil => intro index; simp [remove_subscription_loop, watches, notifications, updates]
  | cons candidate remaining ih =>
    intro index
    by_cases h : candidate.equals subscriber = true
    · simp [remove_subscription_loop, h, watches, notifications, updates]
    · simpa [remove_subscription_loop, h, watches, notifications, updates] using ih (index + 1)

theorem subscribe_subscribers (native : CollectionInterface Collection RealmData)
    (self : JSObject Collection) (subscriber : Subscriber) :
    (self.subscribe native subscriber).1.subscribers = self.subscribers ++ [subscriber] := by
  unfold JSObject.subscribe JSObject.watch_collection
  split <;> rfl

theorem subscribe_js_object (native : CollectionInterface Collection RealmData)
    (self : JSObject Collection) (subscriber : Subscriber) :
    (self.subscribe native subscriber).1.js_object = self.js_object := by
  unfold JSObject.subscribe JSObject.watch_collection
  split <;> rfl

/-- When every `notify` returns, the loop calls every subscriber, in order. -/
theorem notify_loop_returned (object : ObjectType) (change_set : ChangeSet) :
    ∀ subscribers : List Subscriber,
      (∀ subscriber ∈ subscribers, subscriber.notify object change_set = Completion.returned) →
      notify_loop object change_set subscribers =
        (subscribers.map (fun subscriber => Call.notify subscriber object change_set),
         Completion.returned) := by
  intro subscribers
  induction subscribers with
  | nil => intro _; rfl
  | cons subscriber remaining ih =>
    intro h
    have h1 := h subscriber (List.mem_cons_self _ _)
    have h2 := ih (fun s hs => h s (List.mem_cons_of_mem _ hs))
    simp [notify_loop, h1, h2]

/-- When a `notify` throws after a run of calls that return, the loop calls
the subscribers up to the throwing one and no further. -/
theorem notify_loop_threw (object : ObjectType) (change_set : ChangeSet)
    (faulty : Subscriber) (later : List Subscriber)
    (hfaulty : faulty.notify object change_set = Completion.threw) :
    ∀ earlier : List Subscriber,
      (∀ subscriber ∈ earlier, subscriber.notify object change_set = Completion.returned) →
      notify_loop object change_set (earlier ++ faulty :: later) =
        ((earlier ++ [faulty]).map (fun subscriber => Call.notify subscriber object change_set),
         Completion.threw) := by
  intro earlier
  induction earlier with
  | nil => intro _; simp [notify_loop, hfaulty]
  | cons subscriber remaining ih =>
    intro h
    have h1 := h subscriber (List.mem_cons_self _ _)
    have h2 := ih (fun s hs => h s (List.mem_cons_of_mem _ hs))
    simp [notify_loop, h1, h2]

theorem notifications_map_notify (object : ObjectType) (change_set : ChangeSet)
    (subscribers : List Subscriber) :
    notifications (subscribers.map (fun subscriber => Call.notify subscriber object change_set)) =
      subscribers.map (fun subscriber => (subscriber, object, change_set)) := by
  induction subscribers with
  | nil => rfl
  | cons subscriber remaining ih => simp [notifications, ih]

theorem updates_map_notify (object : ObjectType) (change_set : ChangeSet)
    (subscribers : List Subscriber) :
    updates (subscribers.map (fun subscriber => Call.notify subscriber object change_set)) = [] := by
  induction subscribers with
  | nil => rfl
  | cons subscriber remaining ih => simp [updates, ih]

/-- The loop makes `notify` calls only. -/
theorem notify_loop_calls (object : ObjectType) (change_set : ChangeSet) :
    ∀ subscribers : List Subscriber,
      updates (notify_loop object change_set subscribers).1 = [] ∧
      watches (notify_loop object change_set subscribers).1 = [] := by
  intro subscribers
  induction subscribers with
  | nil => simp [notify_loop, updates, watches]
  | cons subscriber remaining ih =>
    cases h : subscriber.notify object change_set <;>
      simp [notify_loop, h, updates, watches, ih]

/-- With a single subscriber the loop makes exactly one `notify` call,
whether that call returns or throws. -/
theorem notify_loop_singleton (object : ObjectType) (change_set : ChangeSet)
    (subscriber : Subscriber) :
    (notify_loop object change_set [subscriber]).1 = [Call.notify subscriber object change_set] := by
  cases h : subscriber.notify object change_set <;> simp [notify_loop, h]

/-- The deliveries made by the change callback for a notification from the
realm are those of the fan-out loop over the registry. -/
theorem notifications_on_change_callback (self : JSObject Collection)
    (notification : Notification) (hrealm : notification.from_realm = true) :
    notifications (self.on_change_callback notification).1 =
      notifications
        (notify_loop self.js_object.get_object notification.change_set self.subscribers).1 := by
  simp [JSObject.on_change_callback, hrealm, JSObject.update, JSObject.notify_subscriber,
    notifications]

/-- Subscribing a list of handles one after the other appends them to the
registry in that order and leaves the host object alone. -/
theorem run_subscribe (native : CollectionInterface Collection RealmData) :
    ∀ (handles : List Subscriber) (self : JSObject Collection),
      (self.run native (handles.map Operation.subscribe)).1.subscribers
          = self.subscribers ++ handles ∧
        (self.run native (handles.map Operation.subscribe)).1.js_object = self.js_object := by
  intro handles
  induction handles with
  | nil => intro self; simp [JSObject.run]
  | cons handle handles ih =>
    intro self
    have h := ih (self.subscribe native handle).1
    rw [subscribe_subscribers, subscribe_js_object] at h
    simpa [JSObject.run, JSObject.perform] using h

/-- What one operation does to the watch flag: either it makes no `watch()`
call and leaves the flag alone, or the bridge was not watching, it makes one
`watch()` call and the flag becomes the result of that call. -/
theorem perform_watches (native : CollectionInterface Collection RealmData)
    (self : JSObject Collection) (operation : Operation) :
    (watches (self.perform native operation).2 = [] ∧
        (self.perform native operation).1.waiting_for_notifications
          = self.waiting_for_notifications) ∨
      (self.waiting_for_notifications = false ∧
        watches (self.perform native operation).2
          = [(self.perform native operation).1.waiting_for_notifications]) := by
  cases operation with
  | watch_collection =>
    cases h : self.waiting_for_notifications <;>
      simp [JSObject.perform, JSObject.watch_collection, h, watches]
  | subscribe subscriber =>
    cases h : self.waiting_for_notifications <;>
      simp [JSObject.perform, JSObject.subscribe, JSObject.watch_collection, h, watches]
  | remove_subscription subscriber =>
    left
    exact ⟨(remove_subscription_loop_snd subscriber self.subscribers self.subscribers (-1)).1, rfl⟩
  | unsubscribe_all => left; exact ⟨rfl, rfl⟩
  | notification notification =>
    left
    refine ⟨?_, rfl⟩
    by_cases hrealm : notification.from_realm = true
    · simp [JSObject.perform, JSObject.on_change_callback, hrealm, JSObject.update, watches,
        watches_append, JSObject.notify_subscriber, (notify_loop_calls _ _ _).2]
    · simp [JSObject.perform, JSObject.on_change_callback, hrealm, JSObject.update, watches]

/-- Along any sequence of operations a bridge that is watching makes no
`watch()` call, and any bridge sees at most one `watch()` call return true. -/
theorem run_watches (native : CollectionInterface Collection RealmData) :
    ∀ (operations : List Operation) (self : JSObject Collection),
      (self.waiting_for_notifications = true → watches (self.run native operations).2 = []) ∧
        (watches (self.run native operations).2).count true ≤ 1 := by
  intro operations
  induction operations with
  | nil => intro self; simp [JSObject.run, watches]
  | cons operation operations ih =>
    intro self
    obtain ⟨hrest, hcount⟩ := ih (self.perform native operation).1
    simp only [JSObject.run, watches_append]
    rcases perform_watches native self operation with ⟨hnone, hflag⟩ | ⟨hoff, hone⟩
    · rw [hnone, List.nil_append]
      exact ⟨fun h => hrest (hflag.trans h), hcount⟩
    · rw [hone]
      refine ⟨fun h => by simp [hoff] at h, ?_⟩
      cases hresult : (self.perform native operation).1.waiting_for_notifications
      · simpa using hcount
      · simp [hrest hresult]

/-- The registry after one operation. -/
theorem perform_subscribers (native : CollectionInterface Collection RealmData)
    (self : JSObject Collection) (operation : Operation) :
    (self.perform native operation).1.subscribers =
      match operation with
      | Operation.watch_collection => self.subscribers
      | Operation.subscribe subscriber => self.subscribers ++ [subscriber]
      | Operation.remove_subscription subscriber =>
        self.subscribers.eraseP (fun candidate => candidate.equals subscriber)
      | Operation.unsubscribe_all => []
      | Operation.notification _ => self.subscribers := by
  cases operation with
  | watch_collection =>
    cases h : self.waiting_for_notifications <;>
      simp [JSObject.perform, JSObject.watch_collection, h]
  | subscribe subscriber => exact subscribe_subscribers native self subscriber
  | remove_subscription subscriber => exact remove_subscription_subscribers self subscriber
  | unsubscribe_all => rfl
  | notification notification => rfl

/-- A registry without two equal entries stays so along every sequence of
operations whose `subscribe` calls carry handles not registered at the time. -/
theorem run_pairwise (native : CollectionInterface Collection RealmData) :
    ∀ (operations : List Operation) (self : JSObject Collection),
      self.subscribers.Pairwise (fun x y => x.equals y = false) →
      self.subscribes_unregistered native operations = true →
      (self.run native operations).1.subscribers.Pairwise (fun x y => x.equals y = false) := by
  intro operations
  induction operations with
  | nil => intro self h _; simpa [JSObject.run] using h
  | cons operation operations ih =>
    intro self h hnew
    simp only [JSObject.subscribes_unregistered, Bool.and_eq_true] at hnew
    refine ih (self.perform native operation).1 ?_ hnew.2
    rw [perform_subscribers]
    cases operation with
    | watch_collection => exact h
    | subscribe subscriber =>
      have hall := hnew.1
      simp only [List.all_eq_true, Bool.not_eq_true'] at hall
      rw [List.pairwise_append]
      refine ⟨h, List.pairwise_singleton _ _, ?_⟩
      intro x hx y hy
      rw [List.mem_singleton] at hy
      subst hy
      exact hall x hx
    | remove_subscription subscriber => exact h.sublist (List.eraseP_sublist _)
    | unsubscribe_all => exact List.Pairwise.nil
    | notification notification => exact h

/-- On a bridge that is not watching, `watch_collection` and `subscribe` make
exactly one `watch()` call, and the flag becomes its result. -/
theorem perform_of_activation (native : CollectionInterface Collection RealmData)
    (self : JSObject Collection) (operation : Operation)
    (hactivation : operation.is_activation = true)
    (hoff : self.waiting_for_notifications = false) :
    watches (self.perform native operation).2
      = [(self.perform native operation).1.waiting_for_notifications] := by
  cases operation with
  | watch_collection => simp [JSObject.perform, JSObject.watch_collection, hoff, watches]
  | subscribe subscriber =>
    simp [JSObject.perform, JSObject.subscribe, JSObject.watch_collection, hoff, watches]
  | remove_subscription subscriber => simp [Operation.is_activation] at hactivation
  | unsubscribe_all => simp [Operation.is_activation] at hactivation
  | notification notification => simp [Operation.is_activation] at hactivation

/-- After a sequence of operations the bridge is watching exactly when it was
watching before or one of the `watch()` calls made on the way returned true. -/
theorem run_waiting (native : CollectionInterface Collection RealmData) :
    ∀ (operations : List Operation) (self : JSObject Collection),
      (self.run native operations).1.waiting_for_notifications = true ↔
        (self.waiting_for_notifications = true ∨
          true ∈ watches (self.run native operations).2) := by
  intro operations
  induction operations with
  | nil => intro self; simp [JSObject.run, watches]
  | cons operation operations ih =>
    intro self
    have hrest := ih (self.perform native operation).1
    simp only [JSObject.run, watches_append]
    rw [hrest]
    rcases perform_watches native self operation with ⟨hnone, hflag⟩ | ⟨hoff, hone⟩
    · rw [hnone, hflag, List.nil_append]
    · rw [hone, hoff]
      cases (self.perform native operation).1.waiting_for_notifications <;> simp

/-- The `watch()` calls of a sequence of activations on a bridge that is not
watching: one failing call per operation as long as none has succeeded, then
the one that succeeds, then none. -/
theorem run_activations (native : CollectionInterface Collection RealmData) :
    ∀ (operations : List Operation) (self : JSObject Collection),
      self.waiting_for_notifications = false →
      (∀ operation ∈ operations, operation.is_activation = true) →
      ((self.run native operations).1.waiting_for_notifications = false ∧
          watches (self.run native operations).2 = List.replicate operations.length false) ∨
        ((self.run native operations).1.waiting_for_notifications = true ∧
          ∃ failures : Nat, failures < operations.length ∧
            watches (self.run native operations).2
              = List.replicate failures false ++ [true]) := by
  intro operations
  induction operations with
  | nil => intro self hoff _; left; exact ⟨hoff, rfl⟩
  | cons operation operations ih =>
    intro self hoff hall
    have hone := perform_of_activation native self operation
      (hall operation (List.mem_cons_self _ _)) hoff
    have hlater : ∀ o ∈ operations, o.is_activation = true :=
      fun o ho => hall o (List.mem_cons_of_mem _ ho)
    simp only [JSObject.run, watches_append, hone]
    cases hresult : (self.perform native operation).1.waiting_for_notifications with
    | false =>
      rcases ih _ hresult hlater with ⟨hstill, hcalls⟩ | ⟨hnow, failures, hlt, hcalls⟩
      · left
        exact ⟨hstill, by rw [hcalls]; rfl⟩
      · right
        refine ⟨hnow, failures + 1, by simpa using hlt, ?_⟩
        rw [hcalls]
        rfl
    | true =>
      right
      refine ⟨(run_waiting native operations _).2 (Or.inl hresult), 0, by simp, ?_⟩
      rw [(run_watches native operations _).1 hresult]
      rfl

/-- The fan-out over a non-empty registry begins with a `notify` call on
its first entry, whether that call returns or throws. -/
theorem notify_loop_first (object : ObjectType) (change_set : ChangeSet)
    (first : Subscriber) (others : List Subscriber) :
    ∃ later : List (Subscriber × ObjectType × ChangeSet),
      notifications (notify_loop object change_set (first :: others)).1
        = (first, object, change_set) :: later := by
  cases h : first.notify object change_set
  · exact ⟨notifications (notify_loop object change_set others).1, by
      simp [notify_loop, h, notifications]⟩
  · exact ⟨[], by simp [notify_loop, h, notifications]⟩

/-- Calls from inside `notify` that do not change the vector leave the
registry and the host object as they are and notify nobody. -/
theorem run_reentries_unchanged (native : CollectionInterface Collection RealmData) :
    ∀ (reentries : List Reentry) (self : JSObject Collection),
      reentries.any (Reentry.invalidates self.subscribers) = false →
      (self.run native (reentries.map Reentry.operation)).1.subscribers = self.subscribers ∧
        (self.run native (reentries.map Reentry.operation)).1.js_object = self.js_object ∧
        notifications (self.run native (reentries.map Reentry.operation)).2 = [] := by
  intro reentries
  induction reentries with
  | nil => intro self _; exact ⟨rfl, rfl, rfl⟩
  | cons reentry reentries ih =>
    intro self hquiet
    rw [List.any_cons, Bool.or_eq_false_iff] at hquiet
    cases reentry with
    | subscribe subscriber => simp [Reentry.invalidates] at hquiet
    | unsubscribe_all => simp [Reentry.invalidates] at hquiet
    | remove_subscription handle =>
      have habsent : ∀ candidate ∈ self.subscribers, ¬ candidate.equals handle = true := by
        have h := hquiet.1
        simp only [Reentry.invalidates, List.any_eq_false] at h
        exact h
      have hsame : (self.remove_subscription handle).1.subscribers = self.subscribers := by
        rw [remove_subscription_subscribers]
        exact List.eraseP_of_forall_not habsent
      have hrest := ih (self.remove_subscription handle).1 (by rw [hsame]; exact hquiet.2)
      rw [hsame] at hrest
      refine ⟨hrest.1, hrest.2.1, ?_⟩
      simp only [List.map_cons, Reentry.operation, JSObject.run, JSObject.perform,
        notifications_append, hrest.2.2, List.append_nil]
      exact (remove_subscription_loop_snd handle self.subscribers self.subscribers (-1)).2.1

/-- When every `notify` returns and none of the calls made from inside
changes the vector, the fan-out visits every entry, in order, and leaves the
registry as it was. -/
theorem notify_loop_reentrant_unchanged (native : CollectionInterface Collection RealmData)
    (calls_back : Subscriber → List Reentry) (object : ObjectType) (change_set : ChangeSet) :
    ∀ (remaining : List Subscriber) (self : JSObject Collection),
      (∀ subscriber ∈ remaining,
        (calls_back subscriber).any (Reentry.invalidates self.subscribers) = false) →
      (∀ subscriber ∈ remaining, subscriber.notify object change_set = Completion.returned) →
      (notify_loop_reentrant native calls_back object change_set remaining
          self).1.subscribers = self.subscribers ∧
        notifications (notify_loop_reentrant native calls_back object change_set remaining
          self).2.1 = remaining.map (fun subscriber => (subscriber, object, change_set)) ∧
        (notify_loop_reentrant native calls_back object change_set remaining self).2.2
          = Outcome.returned := by
  intro remaining
  induction remaining with
  | nil => intro self _ _; exact ⟨rfl, rfl, rfl⟩
  | cons subscriber remaining ih =>
    intro self hquiet hreturn
    have hq := hquiet subscriber (List.mem_cons_self _ _)
    have hr := hreturn subscriber (List.mem_cons_self _ _)
    obtain ⟨hsame, _, hnone⟩ := run_reentries_unchanged native (calls_back subscriber) self hq
    have hrest := ih (self.run native ((calls_back subscriber).map Reentry.operation)).1
      (by rw [hsame]; exact fun s hs => hquiet s (List.mem_cons_of_mem _ hs))
      (fun s hs => hreturn s (List.mem_cons_of_mem _ hs))
    rw [hsame] at hrest
    simp only [notify_loop_reentrant, hr, hq, Bool.false_eq_true, if_false, notifications,
      notifications_append, hnone, List.nil_append, List.map_cons]
    exact ⟨hrest.1, by rw [hrest.2.1], hrest.2.2⟩

/-- When no subscriber calls back, the fan-out with calls back is the plain
fan-out. -/
theorem notify_loop_reentrant_of_no_calls (native : CollectionInterface Collection RealmData)
    (object : ObjectType) (change_set : ChangeSet) (self : JSObject Collection) :
    ∀ remaining : List Subscriber,
      notify_loop_reentrant native (fun _ => []) object change_set remaining self
        = (self, (notify_loop object change_set remaining).1,
            (notify_loop object change_set remaining).2.outcome) := by
  intro remaining
  induction remaining with
  | nil => rfl
  | cons subscriber remaining ih =>
    cases h : subscriber.notify object change_set <;>
      simp [notify_loop_reentrant, notify_loop, h, JSObject.run, ih, Completion.outcome]

/-- Over a run of subscribers whose `notify` returns, the fan-out calls each
of them and then goes on with the rest of the registry. -/
theorem notify_loop_returned_append (object : ObjectType) (change_set : ChangeSet)
    (others : List Subscriber) :
    ∀ earlier : List Subscriber,
      (∀ subscriber ∈ earlier, subscriber.notify object change_set = Completion.returned) →
      notify_loop object change_set (earlier ++ others) =
        (earlier.map (fun subscriber => Call.notify subscriber object change_set) ++
            (notify_loop object change_set others).1,
         (notify_loop object change_set others).2) := by
  intro earlier
  induction earlier with
  | nil => intro _; rfl
  | cons subscriber remaining ih =>
    intro h
    have h1 := h subscriber (List.mem_cons_self _ _)
    have h2 := ih (fun s hs => h s (List.mem_cons_of_mem _ hs))
    simp [notify_loop, h1, h2]

/-! ## The claims -/

/-- C1: starting from a bridge whose registry is empty, for subscribers `a`
and `b` with `a.equals(b)` false, after `subscribe(a); subscribe(b);
remove_subscription(a)` the registry is exactly `[b]`, and a notification
from the realm delivered in that state calls `notify` on `b` exactly once
(with the host object and the change set) and on no other subscriber. -/
theorem C1_subscribe_subscribe_remove (native : CollectionInterface Collection RealmData)
    (self : JSObject Collection) (a b : Subscriber) (notification : Notification)
    (hempty : self.subscribers = []) (_hdistinct : a.equals b = false)
    (hrealm : notification.from_realm = true) :
    (((self.subscribe native a).1.subscribe native b).1.remove_subscription a).1.subscribers
        = [b] ∧
      notifications
          ((((self.subscribe native a).1.subscribe native b).1.remove_subscription
              a).1.on_change_callback notification).1
        = [(b, self.js_object.get_object, notification.change_set)] := by
  have hregistry :
      (((self.subscribe native a).1.subscribe native b).1.remove_subscription a).1.subscribers
        = [b] := by
    rw [remove_subscription_subscribers, subscribe_subscribers, subscribe_subscribers, hempty]
    simp [List.eraseP_cons, Subscriber.equals_self]
  have hobject :
      (((self.subscribe native a).1.subscribe native b).1.remove_subscription a).1.js_object
        = self.js_object := by
    show ((self.subscribe native a).1.subscribe native b).1.js_object = self.js_object
    rw [subscribe_js_object, subscribe_js_object]
  refine ⟨hregistry, ?_⟩
  rw [notifications_on_change_callback _ _ hrealm, hregistry, hobject, notify_loop_singleton]
  rfl

/-- C1, at a concrete input: two quiet subscribers with identities 1 and 2 on
a freshly constructed bridge. -/
theorem C1_subscribe_subscribe_remove_witness :
    ((((fresh_bridge true).subscribe (constant_native true) (quiet_subscriber 1)).1.subscribe
          (constant_native true) (quiet_subscriber 2)).1.remove_subscription
        (quiet_subscriber 1)).1.subscribers = [quiet_subscriber 2] ∧
      notifications
          (((((fresh_bridge true).subscribe (constant_native true) (quiet_subscriber 1)).1.subscribe
                (constant_native true) (quiet_subscriber 2)).1.remove_subscription
              (quiet_subscriber 1)).1.on_change_callback realm_notification).1
        = [(quiet_subscriber 2, 7, "field=1")] :=
  C1_subscribe_subscribe_remove (constant_native true) (fresh_bridge true)
    (quiet_subscriber 1) (quiet_subscriber 2) realm_notification rfl (by decide) rfl

/-- C2: for every bridge state and every notification with `from_realm`
false, the change callback calls the property binder's `update` exactly once
(on the bridge's host object wrapper), calls `notify` on no subscriber
whatever the registry holds, and returns. -/
theorem C2_own_change_refreshes_without_notifying (self : JSObject Collection)
    (notification : Notification) (hown : notification.from_realm = false) :
    updates (self.on_change_callback notification).1 = [self.js_object] ∧
      notifications (self.on_change_callback notification).1 = [] ∧
      (self.on_change_callback notification).2 = Completion.returned := by
  simp [JSObject.on_change_callback, hown, JSObject.update, updates, notifications]

/-- C2, at a concrete input: a bridge with two registered subscribers. -/
theorem C2_own_change_refreshes_without_notifying_witness :
    updates ((((fresh_bridge true).subscribe (constant_native true) (quiet_subscriber 1)).1.subscribe
        (constant_native true) (faulty_subscriber 2)).1.on_change_callback own_notification).1
        = [(fresh_bridge true).js_object] ∧
      notifications ((((fresh_bridge true).subscribe (constant_native true)
        (quiet_subscriber 1)).1.subscribe
        (constant_native true) (faulty_subscriber 2)).1.on_change_callback own_notification).1
        = [] ∧
      ((((fresh_bridge true).subscribe (constant_native true) (quiet_subscriber 1)).1.subscribe
        (constant_native true) (faulty_subscriber 2)).1.on_change_callback own_notification).2
        = Completion.returned :=
  C2_own_change_refreshes_without_notifying
    (((fresh_bridge true).subscribe (constant_native true) (quiet_subscriber 1)).1.subscribe
      (constant_native true) (faulty_subscriber 2)).1 own_notification rfl

/-- C3: for every bridge state and every notification with `from_realm` true,
the trace of the change callback splits around its only call to
`getters_setters->update`: no `notify` call comes before that call, so it
occurs before every call to any subscriber's `notify`. -/
theorem C3_update_precedes_notify (self : JSObject Collection)
    (notification : Notification) (hrealm : notification.from_realm = true) :
    ∃ before after : List Call,
      (self.on_change_callback notification).1 = before ++ Call.update self.js_object :: after ∧
      notifications before = [] ∧ updates before = [] ∧ updates after = [] ∧
      notifications after = notifications (self.on_change_callback notification).1 ∧
      after = (self.notify_subscriber notification).1 := by
  refine ⟨[Call.cout "Update! \n", Call.cout "Update! \n"],
    (self.notify_subscriber notification).1, ?_, rfl, rfl, ?_, ?_, rfl⟩
  · simp [JSObject.on_change_callback, hrealm, JSObject.update]
  · exact (notify_loop_calls _ _ _).1
  · simp [JSObject.on_change_callback, hrealm, JSObject.update, notifications]

/-- C3, at a concrete input: a bridge with two registered subscribers. -/
theorem C3_update_precedes_notify_witness :
    ∃ before after : List Call,
      ((((fresh_bridge true).subscribe (constant_native true) (quiet_subscriber 1)).1.subscribe
        (constant_native true) (quiet_subscriber 2)).1.on_change_callback realm_notification).1
        = before ++ Call.update (((fresh_bridge true).subscribe (constant_native true)
            (quiet_subscriber 1)).1.subscribe
            (constant_native true) (quiet_subscriber 2)).1.js_object :: after ∧
      notifications before = [] ∧ updates before = [] ∧ updates after = [] ∧
      notifications after = notifications ((((fresh_bridge true).subscribe (constant_native true)
        (quiet_subscriber 1)).1.subscribe
        (constant_native true) (quiet_subscriber 2)).1.on_change_callback realm_notification).1 ∧
      after = ((((fresh_bridge true).subscribe (constant_native true)
        (quiet_subscriber 1)).1.subscribe
        (constant_native true) (quiet_subscriber 2)).1.notify_subscriber realm_notification).1 :=
  C3_update_precedes_notify
    (((fresh_bridge true).subscribe (constant_native true) (quiet_subscriber 1)).1.subscribe
      (constant_native true) (quiet_subscriber 2)).1 realm_notification rfl

/-- C4, refuted as stated: after `subscribe` of three subscribers with the
identities 1, 2, 3 on a freshly constructed bridge, the second of which throws
from its `notify`, the registry holds all three but the fan-out for a
notification from the realm calls `notify` on the first two only. -/
theorem C4_throwing_entry_cuts_the_fan_out :
    ((fresh_bridge true).run (constant_native true)
        ([quiet_subscriber 1, faulty_subscriber 2, quiet_subscriber 3].map
          Operation.subscribe)).1.subscribers.map (fun subscriber => subscriber.identity)
        = [1, 2, 3] ∧
      (notifications
        (((fresh_bridge true).run (constant_native true)
          ([quiet_subscriber 1, faulty_subscriber 2, quiet_subscriber 3].map
            Operation.subscribe)).1.notify_subscriber realm_notification).1).map
          (fun delivery => delivery.1.identity) = [1, 2] ∧
      (((fresh_bridge true).run (constant_native true)
          ([quiet_subscriber 1, faulty_subscriber 2, quiet_subscriber 3].map
            Operation.subscribe)).1.notify_subscriber realm_notification).2
        = Completion.threw := by
  refine ⟨?_, ?_, ?_⟩ <;> decide

/-- C4, amended: the registry built by `subscribe(s1); ...; subscribe(sn)` on a
bridge with an empty registry is `[s1, ..., sn]`.  For a notification from the
realm, provided every `notify` returns, `notify_subscriber` calls `notify` on
`s1, ..., sn` in exactly that order, once per entry, each time with the
bridge's host object and the notification's change set, and the change
callback makes exactly these deliveries.  With one subscriber the fan-out is
exactly one `notify` call carrying that change set, whether it returns or
not. -/
theorem C4_notify_in_insertion_order (native : CollectionInterface Collection RealmData)
    (self : JSObject Collection) (handles : List Subscriber) (notification : Notification)
    (hempty : self.subscribers = []) (hrealm : notification.from_realm = true) :
    (self.run native (handles.map Operation.subscribe)).1.subscribers = handles ∧
      ((∀ handle ∈ handles,
          handle.notify self.js_object.get_object notification.change_set
            = Completion.returned) →
        (self.run native (handles.map Operation.subscribe)).1.notify_subscriber notification
            = (handles.map
                (fun handle =>
                  Call.notify handle self.js_object.get_object notification.change_set),
               Completion.returned) ∧
          notifications
              ((self.run native (handles.map Operation.subscribe)).1.on_change_callback
                notification).1
            = handles.map
                (fun handle => (handle, self.js_object.get_object, notification.change_set))) ∧
      ∀ S1 : Subscriber,
        ((self.subscribe native S1).1.notify_subscriber notification).1
          = [Call.notify S1 self.js_object.get_object notification.change_set] := by
  obtain ⟨hregistry, hobject⟩ := run_subscribe native handles self
  rw [hempty, List.nil_append] at hregistry
  refine ⟨hregistry, ?_, ?_⟩
  · intro hreturn
    have hloop := notify_loop_returned self.js_object.get_object notification.change_set
      handles hreturn
    constructor
    · simp only [JSObject.notify_subscriber, hregistry, hobject, hloop]
    · rw [notifications_on_change_callback _ _ hrealm, hregistry, hobject, hloop,
        notifications_map_notify]
  · intro S1
    simp only [JSObject.notify_subscriber, subscribe_subscribers, subscribe_js_object, hempty,
      List.nil_append, notify_loop_singleton]

/-- C4 amended, at a concrete input: three quiet subscribers, the first and
the last with the same identity, on a freshly constructed bridge. -/
theorem C4_notify_in_insertion_order_witness :
    ((fresh_bridge false).run (constant_native false)
        ([quiet_subscriber 1, quiet_subscriber 2, quiet_subscriber 1].map
          Operation.subscribe)).1.subscribers
        = [quiet_subscriber 1, quiet_subscriber 2, quiet_subscriber 1] ∧
      ((fresh_bridge false).run (constant_native false)
        ([quiet_subscriber 1, quiet_subscriber 2, quiet_subscriber 1].map
          Operation.subscribe)).1.notify_subscriber realm_notification
        = ([quiet_subscriber 1, quiet_subscriber 2, quiet_subscriber 1].map
            (fun handle => Call.notify handle (fresh_bridge false).js_object.get_object
              realm_notification.change_set),
           Completion.returned) ∧
      notifications
          (((fresh_bridge false).run (constant_native false)
            ([quiet_subscriber 1, quiet_subscriber 2, quiet_subscriber 1].map
              Operation.subscribe)).1.on_change_callback realm_notification).1
        = [quiet_subscriber 1, quiet_subscriber 2, quiet_subscriber 1].map
            (fun handle => (handle, (fresh_bridge false).js_object.get_object,
              realm_notification.change_set)) :=
  ⟨(C4_notify_in_insertion_order (constant_native false) (fresh_bridge false)
      [quiet_subscriber 1, quiet_subscriber 2, quiet_subscriber 1] realm_notification
      rfl rfl).1,
   (C4_notify_in_insertion_order (constant_native false) (fresh_bridge false)
      [quiet_subscriber 1, quiet_subscriber 2, quiet_subscriber 1] realm_notification
      rfl rfl).2.1
    (by
      intro handle hmem
      simp only [List.mem_cons, List.mem_singleton, List.not_mem_nil, or_false] at hmem
      rcases hmem with h | h | h <;> subst h <;> rfl)⟩

/-- C5, refuted as stated: on a freshly constructed bridge whose native
collection answers `watch()` with false, `subscribe` appends the handle but
the bridge is not watching afterwards. -/
theorem C5_subscribe_not_always_watching :
    ¬ (((fresh_bridge false).subscribe (constant_native false)
            (quiet_subscriber 1)).1.subscribers
          = (fresh_bridge false).subscribers ++ [quiet_subscriber 1] ∧
        ((fresh_bridge false).subscribe (constant_native false)
            (quiet_subscriber 1)).1.waiting_for_notifications = true) := by
  intro h
  exact absurd h.2 (by decide)

/-- C5, amended: for every bridge state, every subscriber and every behaviour
of the native collection, after `subscribe(handle)` the registry is the old
registry with the handle appended at the end, and the bridge is watching
exactly when it was watching before or the `watch()` call answered true; the
call to `watch()` is made exactly when the bridge was not watching. -/
theorem C5_subscribe_appends_and_stores_watch_result
    (native : CollectionInterface Collection RealmData)
    (self : JSObject Collection) (handle : Subscriber) :
    (self.subscribe native handle).1.subscribers = self.subscribers ++ [handle] ∧
      (self.subscribe native handle).1.waiting_for_notifications
        = (self.waiting_for_notifications || (native.watch self.collection).1) ∧
      watches (self.subscribe native handle).2
        = if self.waiting_for_notifications then [] else [(native.watch self.collection).1] := by
  cases h : self.waiting_for_notifications <;>
    simp [JSObject.subscribe, JSObject.watch_collection, h, watches]

/-- C6: watch activation is idempotent.  On a bridge that is already watching,
`watch_collection()` makes no call and changes nothing, and `subscribe` makes
no call and changes nothing but the registry; along every sequence of
operations at most one `watch()` call returns true, and a bridge that starts
out watching makes no `watch()` call at all. -/
theorem C6_watch_activation_idempotent (native : CollectionInterface Collection RealmData) :
    (∀ self : JSObject Collection, self.waiting_for_notifications = true →
        self.watch_collection native = (self, [])) ∧
      (∀ (self : JSObject Collection) (handle : Subscriber),
        self.waiting_for_notifications = true →
        self.subscribe native handle
          = ({ self with subscribers := self.subscribers ++ [handle] }, [])) ∧
      (∀ (self : JSObject Collection) (operations : List Operation),
        self.waiting_for_notifications = true →
        watches (self.run native operations).2 = []) ∧
      (∀ (self : JSObject Collection) (operations : List Operation),
        (watches (self.run native operations).2).count true ≤ 1) := by
  refine ⟨?_, ?_, ?_, ?_⟩
  · intro self h
    simp [JSObject.watch_collection, h]
  · intro self handle h
    simp [JSObject.subscribe, JSObject.watch_collection, h]
  · intro self operations h
    exact (run_watches native operations self).1 h
  · intro self operations
    exact (run_watches native operations self).2

/-- C6, at a concrete input: a bridge that became watching through a first
`subscribe`, and a sequence of further activations on a fresh bridge. -/
theorem C6_watch_activation_idempotent_witness :
    ((fresh_bridge true).subscribe (constant_native true)
        (quiet_subscriber 1)).1.waiting_for_notifications = true ∧
      ((fresh_bridge true).subscribe (constant_native true)
          (quiet_subscriber 1)).1.watch_collection (constant_native true)
        = (((fresh_bridge true).subscribe (constant_native true) (quiet_subscriber 1)).1, []) ∧
      watches ((((fresh_bridge true).subscribe (constant_native true)
          (quiet_subscriber 1)).1.subscribe (constant_native true) (quiet_subscriber 2)).2) = [] ∧
      (watches ((fresh_bridge true).run (constant_native true)
          [Operation.watch_collection, Operation.subscribe (quiet_subscriber 1),
            Operation.watch_collection]).2).count true ≤ 1 :=
  ⟨rfl,
   (C6_watch_activation_idempotent (constant_native true)).1 _ rfl,
   by rw [(C6_watch_activation_idempotent (constant_native true)).2.1 _ _ rfl]; rfl,
   (C6_watch_activation_idempotent (constant_native true)).2.2.2 _ _⟩

/-- C7, refuted as stated: subscribing the same handle twice on a freshly
constructed bridge leaves two equal entries in the registry. -/
theorem C7_registry_not_always_unique :
    ¬ ((fresh_bridge true).run (constant_native true)
        [Operation.subscribe (quiet_subscriber 1),
          Operation.subscribe (quiet_subscriber 1)]).1.subscribers.Pairwise
        (fun x y => x.equals y = false) := by
  have hregistry : ((fresh_bridge true).run (constant_native true)
      [Operation.subscribe (quiet_subscriber 1),
        Operation.subscribe (quiet_subscriber 1)]).1.subscribers
      = [quiet_subscriber 1, quiet_subscriber 1] := rfl
  rw [hregistry]
  simp [Subscriber.equals_self]

/-- C7, amended: for every sequence of operations on a freshly constructed
bridge in which each `subscribe` is called with a handle that equals no entry
registered at that time, no two entries of the resulting registry are equal
under `equals`. -/
theorem C7_registry_unique_when_subscribing_unregistered
    (native : CollectionInterface Collection RealmData)
    (context : ContextType) (data : RealmData) (operations : List Operation)
    (hnew : (JSObject.construct native context data).1.subscribes_unregistered native operations
      = true) :
    ((JSObject.construct native context data).1.run native operations).1.subscribers.Pairwise
      (fun x y => x.equals y = false) :=
  run_pairwise native operations (JSObject.construct native context data).1
    List.Pairwise.nil hnew

/-- C7 amended, at a concrete input: subscribe 1, subscribe 2, remove 1,
subscribe 1 again, on a freshly constructed bridge. -/
theorem C7_registry_unique_when_subscribing_unregistered_witness :
    ((JSObject.construct (constant_native true) 0 0).1.run (constant_native true)
        [Operation.subscribe (quiet_subscriber 1), Operation.subscribe (quiet_subscriber 2),
          Operation.remove_subscription (faulty_subscriber 1),
          Operation.subscribe (quiet_subscriber 1)]).1.subscribers.Pairwise
      (fun x y => x.equals y = false) :=
  C7_registry_unique_when_subscribing_unregistered (constant_native true) 0 0
    [Operation.subscribe (quiet_subscriber 1), Operation.subscribe (quiet_subscriber 2),
      Operation.remove_subscription (faulty_subscriber 1),
      Operation.subscribe (quiet_subscriber 1)] (by decide)

/-- C8, refuted as stated: with the registry `[s1, s2]` where the `notify` of
`s1` throws, the change callback for a notification from the realm calls
`notify` on `s1` only, never on `s2`, and the exception leaves the callback. -/
theorem C8_fault_stops_the_fan_out :
    (notifications
        ((((fresh_bridge true).subscribe (constant_native true) (faulty_subscriber 1)).1.subscribe
          (constant_native true) (quiet_subscriber 2)).1.on_change_callback
            realm_notification).1).map (fun delivery => delivery.1.identity) = [1] ∧
      ((((fresh_bridge true).subscribe (constant_native true) (faulty_subscriber 1)).1.subscribe
          (constant_native true) (quiet_subscriber 2)).1.on_change_callback
            realm_notification).2 = Completion.threw := by
  constructor <;> decide

/-- C8, amended: for every registry `s1, ..., sn` and every notification from
the realm, if the `notify` of `si` throws and those of the earlier
subscribers return, the change callback has refreshed the properties once,
calls `notify` on `s1, ..., si` in order and on no later subscriber, and the
exception leaves the callback towards the native layer. -/
theorem C8_fan_out_ends_at_first_fault (self : JSObject Collection)
    (notification : Notification) (earlier later : List Subscriber) (faulty : Subscriber)
    (hrealm : notification.from_realm = true)
    (hregistry : self.subscribers = earlier ++ faulty :: later)
    (hearlier : ∀ subscriber ∈ earlier,
      subscriber.notify self.js_object.get_object notification.change_set
        = Completion.returned)
    (hfaulty : faulty.notify self.js_object.get_object notification.change_set
      = Completion.threw) :
    notifications (self.on_change_callback notification).1
        = (earlier ++ [faulty]).map
            (fun subscriber => (subscriber, self.js_object.get_object, notification.change_set)) ∧
      (self.on_change_callback notification).2 = Completion.threw ∧
      updates (self.on_change_callback notification).1 = [self.js_object] := by
  have hloop := notify_loop_threw self.js_object.get_object notification.change_set
    faulty later hfaulty earlier hearlier
  refine ⟨?_, ?_, ?_⟩
  · rw [notifications_on_change_callback _ _ hrealm, hregistry, hloop, notifications_map_notify]
  · simp [JSObject.on_change_callback, hrealm, JSObject.notify_subscriber, hregistry, hloop]
  · simp only [JSObject.on_change_callback, hrealm, if_true, JSObject.update,
      JSObject.notify_subscriber, hregistry, hloop]
    simp [updates, updates_append, updates_map_notify]

/-- C8 amended, at a concrete input: the registry holds a quiet subscriber, a
faulty one and another quiet one. -/
theorem C8_fan_out_ends_at_first_fault_witness :
    notifications
        (JSObject.on_change_callback
          ({ context := 0, waiting_for_notifications := true, collection := 0,
             subscribers := [quiet_subscriber 1, faulty_subscriber 2, quiet_subscriber 3],
             js_object := { context := 0, object := 7 } } : JSObject Nat)
          realm_notification).1
        = ([quiet_subscriber 1] ++ [faulty_subscriber 2]).map
            (fun subscriber => (subscriber, 7, "field=1")) ∧
      (JSObject.on_change_callback
          ({ context := 0, waiting_for_notifications := true, collection := 0,
             subscribers := [quiet_subscriber 1, faulty_subscriber 2, quiet_subscriber 3],
             js_object := { context := 0, object := 7 } } : JSObject Nat)
          realm_notification).2 = Completion.threw ∧
      updates
        (JSObject.on_change_callback
          ({ context := 0, waiting_for_notifications := true, collection := 0,
             subscribers := [quiet_subscriber 1, faulty_subscriber 2, quiet_subscriber 3],
             js_object := { context := 0, object := 7 } } : JSObject Nat)
          realm_notification).1 = [{ context := 0, object := 7 }] :=
  C8_fan_out_ends_at_first_fault
    ({ context := 0, waiting_for_notifications := true, collection := 0,
       subscribers := [quiet_subscriber 1, faulty_subscriber 2, quiet_subscriber 3],
       js_object := { context := 0, object := 7 } } : JSObject Nat)
    realm_notification [quiet_subscriber 1] [quiet_subscriber 3] (faulty_subscriber 2)
    rfl rfl (by intro subscriber h; rw [List.mem_singleton] at h; subst h; rfl) rfl

/-- C9: for every bridge state and every handle, `remove_subscription(handle)`
leaves the registry (indeed the whole bridge) unchanged when no entry equals
the handle, and in every case leaves the watch flag and the native collection
unchanged and makes no `watch()` call. -/
theorem C9_remove_subscription_frame (self : JSObject Collection) (handle : Subscriber) :
    ((∀ candidate ∈ self.subscribers, candidate.equals handle = false) →
        (self.remove_subscription handle).1.subscribers = self.subscribers ∧
          (self.remove_subscription handle).1 = self) ∧
      (self.remove_subscription handle).1.waiting_for_notifications
        = self.waiting_for_notifications ∧
      (self.remove_subscription handle).1.collection = self.collection ∧
      watches (self.remove_subscription handle).2 = [] := by
  refine ⟨?_, rfl, rfl,
    (remove_subscription_loop_snd handle self.subscribers self.subscribers (-1)).1⟩
  intro habsent
  have hregistry : (self.remove_subscription handle).1.subscribers = self.subscribers := by
    rw [remove_subscription_subscribers]
    exact List.eraseP_of_forall_not (fun candidate hmem => by simp [habsent candidate hmem])
  refine ⟨hregistry, ?_⟩
  have hfields : (self.remove_subscription handle).1
      = { self with subscribers := (self.remove_subscription handle).1.subscribers } := rfl
  rw [hfields, hregistry]

/-- C9, at a concrete input: removing a handle of identity 3 from a registry
holding the identities 1 and 2. -/
theorem C9_remove_subscription_frame_witness :
    (JSObject.remove_subscription
        ({ context := 0, waiting_for_notifications := true, collection := 5,
           subscribers := [quiet_subscriber 1, quiet_subscriber 2],
           js_object := { context := 0, object := 7 } } : JSObject Nat)
        (quiet_subscriber 3)).1.subscribers = [quiet_subscriber 1, quiet_subscriber 2] ∧
      (JSObject.remove_subscription
        ({ context := 0, waiting_for_notifications := true, collection := 5,
           subscribers := [quiet_subscriber 1, quiet_subscriber 2],
           js_object := { context := 0, object := 7 } } : JSObject Nat)
        (quiet_subscriber 3)).1
        = { context := 0, waiting_for_notifications := true, collection := 5,
            subscribers := [quiet_subscriber 1, quiet_subscriber 2],
            js_object := { context := 0, object := 7 } } :=
  (C9_remove_subscription_frame
    ({ context := 0, waiting_for_notifications := true, collection := 5,
       subscribers := [quiet_subscriber 1, quiet_subscriber 2],
       js_object := { context := 0, object := 7 } } : JSObject Nat)
    (quiet_subscriber 3)).1
    (by
      intro candidate hmem
      simp only [List.mem_cons, List.mem_singleton, List.not_mem_nil, or_false] at hmem
      rcases hmem with h | h <;> subst h <;> rfl)

/-- C10: for every bridge state, `unsubscribe_all()` leaves the registry
empty and the watch flag (and the native collection) unchanged and makes no
call; a notification delivered afterwards, from the realm or not, produces no
`notify` call, still calls the property binder's `update` exactly once, and
the callback returns. -/
theorem C10_unsubscribe_all_then_notification (self : JSObject Collection)
    (notification : Notification) :
    self.unsubscribe_all.1.subscribers = [] ∧
      self.unsubscribe_all.1.waiting_for_notifications = self.waiting_for_notifications ∧
      self.unsubscribe_all.1.collection = self.collection ∧
      self.unsubscribe_all.2 = [] ∧
      notifications (self.unsubscribe_all.1.on_change_callback notification).1 = [] ∧
      updates (self.unsubscribe_all.1.on_change_callback notification).1 = [self.js_object] ∧
      (self.unsubscribe_all.1.on_change_callback notification).2 = Completion.returned := by
  refine ⟨rfl, rfl, rfl, rfl, ?_, ?_, ?_⟩ <;>
    cases h : notification.from_realm <;>
    simp [JSObject.unsubscribe_all, JSObject.on_change_callback, h, JSObject.update,
      JSObject.notify_subscriber, notify_loop, notifications, updates]

/-- C12, refuted as stated: on a bridge whose finalizer has fired, `subscribe`
still appends the handle and calls the native `watch()`,
`remove_subscription` still erases, and the change callback still notifies
the registered subscriber and returns; none of them is a no-op or fails. -/
theorem C12_calls_after_finalizer_still_act :
    (finalized_bridge.subscribe (constant_native false) (quiet_subscriber 2)).1.subscribers
        = [quiet_subscriber 1, quiet_subscriber 2] ∧
      watches (finalized_bridge.subscribe (constant_native false) (quiet_subscriber 2)).2
        = [false] ∧
      (finalized_bridge.subscribe (constant_native false) (quiet_subscriber 2)).1.collection
        = finalized_bridge.collection + 1 ∧
      (finalized_bridge.remove_subscription (quiet_subscriber 1)).1.subscribers = [] ∧
      (notifications (finalized_bridge.on_change_callback realm_notification).1).map
        (fun delivery => delivery.1.identity) = [1] ∧
      (finalized_bridge.on_change_callback realm_notification).2 = Completion.returned :=
  ⟨rfl, rfl, rfl, rfl, rfl, rfl⟩

/-- C12, amended: `setup_finalizer` only registers the callback for the host
object and changes nothing in the bridge, and the finalizer only runs the
callback.  The bridge keeps no finalized state: after the finalizer has
fired, whatever its callback did through the bridge's operations and whether
the bridge is watching or not, `subscribe` appends the handle and calls the
native `watch()` exactly when the bridge is not watching,
`remove_subscription` erases the first entry that equals the handle, and the
change callback for a notification from the realm refreshes the properties
once and runs the fan-out over the registry: it notifies every registered
subscriber in order and returns when every `notify` returns, and notifies
those up to and including the first one that throws otherwise, the exception
leaving the callback. -/
theorem C12_no_finalized_state (native : CollectionInterface Collection RealmData)
    (self : JSObject Collection) (object : ObjectType) (cb : List Operation)
    (handle : Subscriber) (notification : Notification) :
    self.setup_finalizer object = (self, [Call.finalize object]) ∧
      (self.finalizer native cb).2 = Call.cb :: (self.run native cb).2 ∧
      ((self.setup_finalizer object).1.finalizer native cb).1 = (self.run native cb).1 ∧
      (((self.setup_finalizer object).1.finalizer native cb).1.subscribe native
          handle).1.subscribers
        = ((self.setup_finalizer object).1.finalizer native cb).1.subscribers ++ [handle] ∧
      watches (((self.setup_finalizer object).1.finalizer native cb).1.subscribe native
          handle).2
        = (if ((self.setup_finalizer object).1.finalizer native
              cb).1.waiting_for_notifications then []
           else [(native.watch ((self.setup_finalizer object).1.finalizer native
              cb).1.collection).1]) ∧
      (((self.setup_finalizer object).1.finalizer native cb).1.remove_subscription
          handle).1.subscribers
        = ((self.setup_finalizer object).1.finalizer native cb).1.subscribers.eraseP
            (fun candidate => candidate.equals handle) ∧
      (notification.from_realm = true →
        updates (((self.setup_finalizer object).1.finalizer native cb).1.on_change_callback
            notification).1
          = [((self.setup_finalizer object).1.finalizer native cb).1.js_object]) ∧
      (notification.from_realm = true →
        (∀ subscriber ∈ ((self.setup_finalizer object).1.finalizer native cb).1.subscribers,
          subscriber.notify
              ((self.setup_finalizer object).1.finalizer native cb).1.js_object.get_object
              notification.change_set = Completion.returned) →
        notifications (((self.setup_finalizer object).1.finalizer native
              cb).1.on_change_callback notification).1
            = ((self.setup_finalizer object).1.finalizer native cb).1.subscribers.map
                (fun subscriber =>
                  (subscriber,
                   ((self.setup_finalizer object).1.finalizer native
                      cb).1.js_object.get_object,
                   notification.change_set)) ∧
          (((self.setup_finalizer object).1.finalizer native cb).1.on_change_callback
              notification).2 = Completion.returned) ∧
      (notification.from_realm = true →
        ∀ (earlier later : List Subscriber) (faulty : Subscriber),
          ((self.setup_finalizer object).1.finalizer native cb).1.subscribers
            = earlier ++ faulty :: later →
          (∀ subscriber ∈ earlier,
            subscriber.notify
                ((self.setup_finalizer object).1.finalizer native cb).1.js_object.get_object
                notification.change_set = Completion.returned) →
          faulty.notify
              ((self.setup_finalizer object).1.finalizer native cb).1.js_object.get_object
              notification.change_set = Completion.threw →
          notifications (((self.setup_finalizer object).1.finalizer native
                cb).1.on_change_callback notification).1
              = (earlier ++ [faulty]).map
                  (fun subscriber =>
                    (subscriber,
                     ((self.setup_finalizer object).1.finalizer native
                        cb).1.js_object.get_object,
                     notification.change_set)) ∧
            (((self.setup_finalizer object).1.finalizer native cb).1.on_change_callback
                notification).2 = Completion.threw) := by
  refine ⟨rfl, rfl, rfl, subscribe_subscribers _ _ _, ?_,
    remove_subscription_subscribers _ _, ?_, ?_, ?_⟩
  · cases h : ((self.setup_finalizer object).1.finalizer native
        cb).1.waiting_for_notifications <;>
      simp [JSObject.subscribe, JSObject.watch_collection, h, watches]
  · intro hrealm
    simp only [JSObject.on_change_callback, hrealm, if_true, JSObject.update,
      JSObject.notify_subscriber]
    simp [updates, updates_append, (notify_loop_calls _ _ _).1]
  · intro hrealm hreturn
    have hloop := notify_loop_returned _ _ _ hreturn
    constructor
    · rw [notifications_on_change_callback _ _ hrealm, hloop, notifications_map_notify]
    · simp [JSObject.on_change_callback, hrealm, JSObject.notify_subscriber, hloop]
  · intro hrealm earlier later faulty hregistry hearlier hfaulty
    have hloop := notify_loop_threw _ _ faulty later hfaulty earlier hearlier
    constructor
    · rw [notifications_on_change_callback _ _ hrealm, hregistry, hloop,
        notifications_map_notify]
    · simp [JSObject.on_change_callback, hrealm, JSObject.notify_subscriber, hregistry,
        hloop]

/-- C12 amended, at concrete inputs: a watching bridge whose finalizer
callback clears the registry and lets two subscribers attach again, all
`notify` calls returning; and a bridge whose finalizer callback does nothing,
with a throwing subscriber in the middle of the registry. -/
theorem C12_no_finalized_state_witness :
    (notifications ((((bridge_with true [quiet_subscriber 1]).setup_finalizer 7).1.finalizer
          (constant_native false)
          [Operation.unsubscribe_all, Operation.subscribe (quiet_subscriber 3),
            Operation.subscribe (quiet_subscriber 4)]).1.on_change_callback
          realm_notification).1
        = (((bridge_with true [quiet_subscriber 1]).setup_finalizer 7).1.finalizer
            (constant_native false)
            [Operation.unsubscribe_all, Operation.subscribe (quiet_subscriber 3),
              Operation.subscribe (quiet_subscriber 4)]).1.subscribers.map
            (fun subscriber =>
              (subscriber,
               (((bridge_with true [quiet_subscriber 1]).setup_finalizer 7).1.finalizer
                  (constant_native false)
                  [Operation.unsubscribe_all, Operation.subscribe (quiet_subscriber 3),
                    Operation.subscribe (quiet_subscriber 4)]).1.js_object.get_object,
               realm_notification.change_set)) ∧
        ((((bridge_with true [quiet_subscriber 1]).setup_finalizer 7).1.finalizer
          (constant_native false)
          [Operation.unsubscribe_all, Operation.subscribe (quiet_subscriber 3),
            Operation.subscribe (quiet_subscriber 4)]).1.on_change_callback
          realm_notification).2 = Completion.returned) ∧
      (notifications ((((bridge_with false
            [quiet_subscriber 1, faulty_subscriber 2, quiet_subscriber 3]).setup_finalizer
            7).1.finalizer (constant_native false) []).1.on_change_callback
            realm_notification).1
        = ([quiet_subscriber 1] ++ [faulty_subscriber 2]).map
            (fun subscriber =>
              (subscriber,
               (((bridge_with false
                  [quiet_subscriber 1, faulty_subscriber 2, quiet_subscriber 3]).setup_finalizer
                  7).1.finalizer (constant_native false) []).1.js_object.get_object,
               realm_notification.change_set)) ∧
        ((((bridge_with false
            [quiet_subscriber 1, faulty_subscriber 2, quiet_subscriber 3]).setup_finalizer
            7).1.finalizer (constant_native false) []).1.on_change_callback
            realm_notification).2 = Completion.threw) :=
  ⟨(C12_no_finalized_state (constant_native false) (bridge_with true [quiet_subscriber 1]) 7
      [Operation.unsubscribe_all, Operation.subscribe (quiet_subscriber 3),
        Operation.subscribe (quiet_subscriber 4)]
      (quiet_subscriber 5) realm_notification).2.2.2.2.2.2.2.1 rfl
      (by
        intro subscriber hmem
        have hregistry : (((bridge_with true [quiet_subscriber 1]).setup_finalizer
            7).1.finalizer (constant_native false)
            [Operation.unsubscribe_all, Operation.subscribe (quiet_subscriber 3),
              Operation.subscribe (quiet_subscriber 4)]).1.subscribers
            = [quiet_subscriber 3, quiet_subscriber 4] := rfl
        rw [hregistry] at hmem
        simp only [List.mem_cons, List.mem_singleton, List.not_mem_nil, or_false] at hmem
        rcases hmem with h | h <;> subst h <;> rfl),
   (C12_no_finalized_state (constant_native false)
      (bridge_with false [quiet_subscriber 1, faulty_subscriber 2, quiet_subscriber 3]) 7 []
      (quiet_subscriber 5) realm_notification).2.2.2.2.2.2.2.2 rfl
      [quiet_subscriber 1] [quiet_subscriber 3] (faulty_subscriber 2) rfl
      (by intro subscriber hmem; rw [List.mem_singleton] at hmem; subst hmem; rfl) rfl⟩

/-- C13, refuted as stated: with the registry holding the identities 1, 2, 3,
where the subscriber of identity 1 removes itself from inside its `notify`,
the fan-out does not notify the three entries the registry held at its start:
after the first `notify` the vector is `[2, 3]` and the loop would go on with
iterators that the `erase` has invalidated, so only identity 1 is known to be
notified and the outcome is undefined. -/
theorem C13_reentrant_removal_breaks_fan_out :
    (JSObject.notify_subscriber_reentrant (constant_native true) first_removes_itself
        (bridge_with true [quiet_subscriber 1, quiet_subscriber 2, quiet_subscriber 3])
        realm_notification).2.2 = Outcome.undefined ∧
      (notifications (JSObject.notify_subscriber_reentrant (constant_native true)
        first_removes_itself
        (bridge_with true [quiet_subscriber 1, quiet_subscriber 2, quiet_subscriber 3])
        realm_notification).2.1).map (fun delivery => delivery.1.identity) = [1] ∧
      (JSObject.notify_subscriber_reentrant (constant_native true) first_removes_itself
        (bridge_with true [quiet_subscriber 1, quiet_subscriber 2, quiet_subscriber 3])
        realm_notification).1.subscribers.map (fun subscriber => subscriber.identity)
        = [2, 3] := by
  refine ⟨?_, ?_, ?_⟩ <;> decide

/-- C13, amended: the fan-out runs over the registry itself, not over a copy.
For every registry and every notification from the realm, if no call made
from inside a `notify` changes the registry (such a call is at most a
`remove_subscription` whose handle equals no entry) and every `notify`
returns, then the subscribers notified are exactly the entries the registry
held when the fan-out started, each once and in insertion order, the fan-out
returns and the registry is as it was. -/
theorem C13_fan_out_when_registry_untouched
    (native : CollectionInterface Collection RealmData)
    (calls_back : Subscriber → List Reentry) (self : JSObject Collection)
    (notification : Notification)
    (hrealm : notification.from_realm = true)
    (hquiet : ∀ subscriber ∈ self.subscribers,
      (calls_back subscriber).any (Reentry.invalidates self.subscribers) = false)
    (hreturn : ∀ subscriber ∈ self.subscribers,
      subscriber.notify self.js_object.get_object notification.change_set
        = Completion.returned) :
    notifications (self.on_change_callback_reentrant native calls_back notification).2.1
        = self.subscribers.map
            (fun subscriber => (subscriber, self.js_object.get_object, notification.change_set)) ∧
      (self.on_change_callback_reentrant native calls_back notification).2.2
        = Outcome.returned ∧
      (self.on_change_callback_reentrant native calls_back notification).1.subscribers
        = self.subscribers ∧
      notifications (self.notify_subscriber_reentrant native calls_back notification).2.1
        = self.subscribers.map
            (fun subscriber => (subscriber, self.js_object.get_object, notification.change_set)) := by
  obtain ⟨hsame, hnotified, hreturned⟩ := notify_loop_reentrant_unchanged native calls_back
    self.js_object.get_object notification.change_set self.subscribers self hquiet hreturn
  refine ⟨?_, ?_, ?_, hnotified⟩
  · simp only [JSObject.on_change_callback_reentrant, hrealm, if_true, JSObject.update,
      JSObject.notify_subscriber_reentrant]
    simpa [notifications] using hnotified
  · simpa [JSObject.on_change_callback_reentrant, hrealm,
      JSObject.notify_subscriber_reentrant] using hreturned
  · simpa [JSObject.on_change_callback_reentrant, hrealm,
      JSObject.notify_subscriber_reentrant] using hsame

/-- C13 amended, at a concrete input: three subscribers that each try to
remove a handle of identity 9, which is not registered. -/
theorem C13_fan_out_when_registry_untouched_witness :
    notifications (JSObject.on_change_callback_reentrant (constant_native true)
        all_remove_nine
        (bridge_with true [quiet_subscriber 1, quiet_subscriber 2, quiet_subscriber 3])
        realm_notification).2.1
      = [quiet_subscriber 1, quiet_subscriber 2, quiet_subscriber 3].map
          (fun subscriber => (subscriber, 7, "field=1")) :=
  (C13_fan_out_when_registry_untouched (constant_native true) all_remove_nine
    (bridge_with true [quiet_subscriber 1, quiet_subscriber 2, quiet_subscriber 3])
    realm_notification rfl (fun _ _ => rfl)
    (by
      intro subscriber hmem
      simp only [bridge_with, List.mem_cons, List.mem_singleton, List.not_mem_nil,
        or_false] at hmem
      rcases hmem with h | h | h <;> subst h <;> rfl)).1

/-- C14, refuted as stated: from the registry with the identities 2, 1, 3, 1,
whose first entry throws from its `notify`, `remove_subscription` of a handle
of identity 1 leaves 2, 3, 1, so the later duplicate stays registered; but the
fan-out of the next notification from the realm ends at the throwing entry
and the duplicate is not notified. -/
theorem C14_later_duplicate_not_always_notified :
    ((bridge_with true [faulty_subscriber 2, quiet_subscriber 1, quiet_subscriber 3,
          quiet_subscriber 1]).remove_subscription (quiet_subscriber 1)).1.subscribers.map
        (fun subscriber => subscriber.identity) = [2, 3, 1] ∧
      (notifications (((bridge_with true [faulty_subscriber 2, quiet_subscriber 1,
          quiet_subscriber 3, quiet_subscriber 1]).remove_subscription
            (quiet_subscriber 1)).1.on_change_callback realm_notification).1).map
        (fun delivery => delivery.1.identity) = [2] := by
  constructor <;> decide

/-- C14, amended: when the registry is `before ++ matching :: after`, no entry
of `before` equals the handle and `matching` does, `remove_subscription`
leaves `before ++ after`: exactly the position of the first match is deleted,
the other entries keep their order, the length drops by exactly one, and
every entry of `after`, a later duplicate of the handle included, stays
registered.  The next fan-out runs over `before ++ after`, and a later
duplicate is notified by a notification from the realm provided every
`notify` before it in that fan-out returns. -/
theorem C14_remove_erases_first_match (self : JSObject Collection)
    (handle matching : Subscriber) (before after : List Subscriber)
    (notification : Notification)
    (hregistry : self.subscribers = before ++ matching :: after)
    (hbefore : ∀ candidate ∈ before, candidate.equals handle = false)
    (hmatching : matching.equals handle = true) :
    (self.remove_subscription handle).1.subscribers = before ++ after ∧
      (self.remove_subscription handle).1.subscribers
        = self.subscribers.eraseIdx before.length ∧
      (self.remove_subscription handle).1.subscribers.length + 1 = self.subscribers.length ∧
      (∀ duplicate ∈ after, duplicate ∈ (self.remove_subscription handle).1.subscribers) ∧
      (self.remove_subscription handle).1.notify_subscriber notification
        = notify_loop self.js_object.get_object notification.change_set (before ++ after) ∧
      (notification.from_realm = true →
        ∀ (earlier later : List Subscriber) (duplicate : Subscriber),
          after = earlier ++ duplicate :: later →
          (∀ subscriber ∈ before ++ earlier,
            subscriber.notify self.js_object.get_object notification.change_set
              = Completion.returned) →
          (duplicate, self.js_object.get_object, notification.change_set) ∈
            notifications
              ((self.remove_subscription handle).1.on_change_callback notification).1) := by
  have hresult : (self.remove_subscription handle).1.subscribers = before ++ after := by
    rw [remove_subscription_subscribers, hregistry,
      List.eraseP_append_right _ (fun candidate hmem => by simp [hbefore candidate hmem]),
      List.eraseP_cons_of_pos (by simpa using hmatching)]
  have hobject : (self.remove_subscription handle).1.js_object = self.js_object := rfl
  refine ⟨hresult, ?_, ?_, ?_, ?_, ?_⟩
  · rw [hresult, hregistry, List.eraseIdx_append_of_length_le (le_refl _)]
    simp
  · rw [hresult, hregistry]
    simp only [List.length_append, List.length_cons]
    omega
  · intro duplicate hmem
    rw [hresult]
    exact List.mem_append_right _ hmem
  · simp only [JSObject.notify_subscriber, hresult, hobject]
  · intro hrealm earlier later duplicate hafter hreturn
    obtain ⟨rest, hfirst⟩ := notify_loop_first self.js_object.get_object
      notification.change_set duplicate later
    rw [notifications_on_change_callback _ _ hrealm, hresult, hobject, hafter,
      ← List.append_assoc, notify_loop_returned_append _ _ _ _ hreturn,
      notifications_append, hfirst]
    exact List.mem_append_right _ (List.mem_cons_self _ _)

/-- C14 amended, at a concrete input: the registry holds the identities 2, 1,
3, 1, all quiet, and the handle has identity 1; the second entry goes, the
fourth stays and is notified. -/
theorem C14_remove_erases_first_match_witness :
    ((bridge_with true [quiet_subscriber 2, quiet_subscriber 1, quiet_subscriber 3,
          quiet_subscriber 1]).remove_subscription (faulty_subscriber 1)).1.subscribers
        = [quiet_subscriber 2] ++ [quiet_subscriber 3, quiet_subscriber 1] ∧
      (quiet_subscriber 1,
        (bridge_with true [quiet_subscriber 2, quiet_subscriber 1, quiet_subscriber 3,
          quiet_subscriber 1]).js_object.get_object, realm_notification.change_set) ∈
        notifications (((bridge_with true [quiet_subscriber 2, quiet_subscriber 1,
          quiet_subscriber 3, quiet_subscriber 1]).remove_subscription
            (faulty_subscriber 1)).1.on_change_callback realm_notification).1 :=
  ⟨(C14_remove_erases_first_match
      (bridge_with true [quiet_subscriber 2, quiet_subscriber 1, quiet_subscriber 3,
        quiet_subscriber 1])
      (faulty_subscriber 1) (quiet_subscriber 1) [quiet_subscriber 2]
      [quiet_subscriber 3, quiet_subscriber 1] realm_notification rfl
      (by intro candidate hmem; rw [List.mem_singleton] at hmem; subst hmem; rfl)
      rfl).1,
   (C14_remove_erases_first_match
      (bridge_with true [quiet_subscriber 2, quiet_subscriber 1, quiet_subscriber 3,
        quiet_subscriber 1])
      (faulty_subscriber 1) (quiet_subscriber 1) [quiet_subscriber 2]
      [quiet_subscriber 3, quiet_subscriber 1] realm_notification rfl
      (by intro candidate hmem; rw [List.mem_singleton] at hmem; subst hmem; rfl)
      rfl).2.2.2.2.2 rfl [quiet_subscriber 3] [] (quiet_subscriber 1) rfl
      (by
        intro subscriber hmem
        simp only [List.singleton_append, List.mem_cons, List.mem_singleton,
          List.not_mem_nil, or_false] at hmem
        rcases hmem with h | h <;> subst h <;> rfl)⟩

/-- C15: the watch flag is monotone.  From a bridge that is watching, every
sequence of `subscribe`, `remove_subscription`, `unsubscribe_all`,
`watch_collection` and notification dispatches leaves the bridge watching,
also when the registry has become empty. -/
theorem C15_watch_flag_monotone (native : CollectionInterface Collection RealmData)
    (self : JSObject Collection) (operations : List Operation)
    (hwatching : self.waiting_for_notifications = true) :
    (self.run native operations).1.waiting_for_notifications = true :=
  (run_waiting native operations self).2 (Or.inl hwatching)

/-- C15, at a concrete input: a watching bridge with one subscriber whose
registry is emptied twice over. -/
theorem C15_watch_flag_monotone_witness :
    ((bridge_with true [quiet_subscriber 1]).run (constant_native false)
        [Operation.remove_subscription (quiet_subscriber 1), Operation.unsubscribe_all,
          Operation.notification realm_notification, Operation.watch_collection,
          Operation.subscribe (quiet_subscriber 2),
          Operation.unsubscribe_all]).1.waiting_for_notifications = true ∧
      ((bridge_with true [quiet_subscriber 1]).run (constant_native false)
        [Operation.remove_subscription (quiet_subscriber 1), Operation.unsubscribe_all,
          Operation.notification realm_notification, Operation.watch_collection,
          Operation.subscribe (quiet_subscriber 2),
          Operation.unsubscribe_all]).1.subscribers = [] :=
  ⟨C15_watch_flag_monotone (constant_native false) (bridge_with true [quiet_subscriber 1])
    [Operation.remove_subscription (quiet_subscriber 1), Operation.unsubscribe_all,
      Operation.notification realm_notification, Operation.watch_collection,
      Operation.subscribe (quiet_subscriber 2), Operation.unsubscribe_all] rfl, rfl⟩

/-- C16: on a bridge that is not watching, `watch_collection` calls `watch()`
once and sets the flag to its return value, so a false answer leaves the
bridge not watching, and `subscribe` does the same after appending.  Along a
sequence of `subscribe` and `watch_collection` calls, `watch()` is called once
per call as long as every answer has been false, and once it has answered
true it is never called again. -/
theorem C16_watch_retried_until_success (native : CollectionInterface Collection RealmData)
    (self : JSObject Collection) (handle : Subscriber) (operations : List Operation)
    (hoff : self.waiting_for_notifications = false)
    (hactivations : ∀ operation ∈ operations, operation.is_activation = true) :
    (self.watch_collection native).2 = [Call.watch (native.watch self.collection).1] ∧
      (self.watch_collection native).1.waiting_for_notifications
        = (native.watch self.collection).1 ∧
      ((native.watch self.collection).1 = false →
        (self.watch_collection native).1.waiting_for_notifications = false ∧
          (self.subscribe native handle).1.waiting_for_notifications = false) ∧
      (self.subscribe native handle).2 = [Call.watch (native.watch self.collection).1] ∧
      (((self.run native operations).1.waiting_for_notifications = false ∧
          watches (self.run native operations).2 = List.replicate operations.length false) ∨
        ((self.run native operations).1.waiting_for_notifications = true ∧
          ∃ failures : Nat, failures < operations.length ∧
            watches (self.run native operations).2
              = List.replicate failures false ++ [true])) := by
  refine ⟨?_, ?_, ?_, ?_, run_activations native operations self hoff hactivations⟩
  · simp [JSObject.watch_collection, hoff]
  · simp [JSObject.watch_collection, hoff]
  · intro hfalse
    simp [JSObject.subscribe, JSObject.watch_collection, hoff, hfalse]
  · simp [JSObject.subscribe, JSObject.watch_collection, hoff]

/-- C16, at a concrete input: the native collection answers false, false and
then true; four activations on a freshly constructed bridge make exactly these
three `watch()` calls. -/
theorem C16_watch_retried_until_success_witness :
    watches ((JSObject.construct third_time_native 0 0).1.run third_time_native
        four_activations).2 = [false, false, true] ∧
      (((JSObject.construct third_time_native 0 0).1.run third_time_native
            four_activations).1.waiting_for_notifications = false ∧
          watches ((JSObject.construct third_time_native 0 0).1.run third_time_native
            four_activations).2 = List.replicate four_activations.length false ∨
        ((JSObject.construct third_time_native 0 0).1.run third_time_native
            four_activations).1.waiting_for_notifications = true ∧
          ∃ failures : Nat, failures < four_activations.length ∧
            watches ((JSObject.construct third_time_native 0 0).1.run third_time_native
              four_activations).2 = List.replicate failures false ++ [true]) :=
  ⟨by decide,
   (C16_watch_retried_until_success third_time_native
    (JSObject.construct third_time_native 0 0).1 (quiet_subscriber 0) four_activations rfl
    (by
      intro operation hmem
      simp only [four_activations, List.mem_cons, List.mem_singleton, List.not_mem_nil,
        or_false] at hmem
      rcases hmem with h | h | h | h <;> subst h <;> rfl)).2.2.2.2⟩

end realm.js
